import Mathlib

/-!
Verification of the core game-logic of the Snake game in `main.py`:
the `Snake` (actor), `Food` (collectible) and `Game` (session) classes.

Modelling conventions:
* Grid cells are pairs of integers; Python's `%` on a positive modulus
  agrees with `Int.emod`, which is used for the toroidal wraparound.
* The four direction constants `UP`, `DOWN`, `LEFT`, `RIGHT` of the source
  are the only direction values the program ever creates, so directions are
  an inductive type with a `vec` interpretation giving the source tuples.
* Mutating methods become functions from the old state to the new state;
  `Snake.move`, which returns a bool and mutates `self`, becomes a function
  returning the pair (returned bool, updated snake).
* `random.randint` draws are passed in explicitly: `randomizePosition`
  receives the sampled cell, and `Game.update` receives the list of samples
  the respawn `while` loop would consume; the loop itself becomes
  `firstNotIn`, returning `none` when the provided samples are exhausted
  (the source loop would keep drawing).
-/

namespace SnakeGame

/-- A grid cell, as the source's `(x, y)` integer tuples. -/
abbrev Pos := Int × Int

def SCREEN_WIDTH : Int := 800

def SCREEN_HEIGHT : Int := 600

def GRID_SIZE : Int := 20

def GRID_WIDTH : Int := SCREEN_WIDTH / GRID_SIZE

def GRID_HEIGHT : Int := SCREEN_HEIGHT / GRID_SIZE

/-- The four canonical directions of the source (`UP`, `DOWN`, `LEFT`,
`RIGHT`); these are the only direction values the program constructs. -/
inductive Dir where
  | UP
  | DOWN
  | LEFT
  | RIGHT
deriving DecidableEq, Repr

/-- The tuple value each direction constant stands for in the source. -/
def Dir.vec : Dir → Pos
  | .UP => (0, -1)
  | .DOWN => (0, 1)
  | .LEFT => (-1, 0)
  | .RIGHT => (1, 0)

/-- The source's `Snake._get_opposite_direction`. -/
def getOppositeDirection : Dir → Dir
  | .UP => .DOWN
  | .DOWN => .UP
  | .LEFT => .RIGHT
  | .RIGHT => .LEFT

/-- The mutable state of the source's `Snake` class (the `color` attribute
is pure rendering data and is omitted). -/
structure Snake where
  positions : List Pos
  direction : Dir
  nextDirection : Dir
  grew : Bool
deriving DecidableEq, Repr

/-- `Snake.__init__`: one segment at the grid center, facing `RIGHT`. -/
def Snake.init : Snake :=
  { positions := [(GRID_WIDTH / 2, GRID_HEIGHT / 2)]
    direction := .RIGHT
    nextDirection := .RIGHT
    grew := false }

/-- `Snake.get_head_position`: `self.positions[0]` (the body is never
empty in any reachable state). -/
def Snake.getHeadPosition (s : Snake) : Pos :=
  s.positions.headI

/-- `Snake.change_direction`. -/
def Snake.changeDirection (s : Snake) (direction : Dir) : Snake :=
  if s.nextDirection ≠ getOppositeDirection direction then
    { s with nextDirection := direction }
  else
    s

/-- The `new_position` computation inside `Snake.move`: head plus the
current `direction` tuple, each axis reduced modulo the grid extent. -/
def Snake.newHeadPosition (s : Snake) : Pos :=
  ((s.getHeadPosition.1 + s.direction.vec.1) % GRID_WIDTH,
   (s.getHeadPosition.2 + s.direction.vec.2) % GRID_HEIGHT)

/-- `Snake.move`: commit the pending direction, compute the wrapped new
head; if it hits `positions[1:]` return `False` with the body untouched;
otherwise prepend the new head and, unless growth is pending, drop the
tail (`insert(0, p)` then `pop()` is `(p :: l).dropLast`). -/
def Snake.move (s : Snake) : Bool × Snake :=
  let s1 : Snake := { s with direction := s.nextDirection }
  let newPosition := s1.newHeadPosition
  if newPosition ∈ s1.positions.tail then
    (false, s1)
  else if s1.grew = false then
    (true, { s1 with positions := (newPosition :: s1.positions).dropLast })
  else
    (true, { s1 with positions := newPosition :: s1.positions, grew := false })

/-- `Snake.grow`: only sets the pending-growth flag. -/
def Snake.grow (s : Snake) : Snake :=
  { s with grew := true }

/-- The source's `Food` class (the `color` attribute is omitted). -/
structure Food where
  position : Pos
deriving DecidableEq, Repr

/-- `Food.randomize_position`, with the `random.randint` draw passed in
explicitly as `sample`. -/
def Food.randomizePosition (_f : Food) (sample : Pos) : Food :=
  { position := sample }

/-- `Food.__init__`: position `(0, 0)` then one unconditional
`randomize_position` call — no check against the snake's body here. -/
def Food.init (sample : Pos) : Food :=
  (Food.mk (0, 0)).randomizePosition sample

/-- The source's module-level game-state constants. -/
inductive GameState where
  | MENU
  | OPTIONS
  | PLAYING
  | GAME_OVER
deriving DecidableEq, Repr

/-- The game-logic state of the source's `Game` class (rendering and menu
bookkeeping fields are omitted). -/
structure Game where
  gameState : GameState
  snake : Snake
  food : Food
  score : Nat
deriving DecidableEq, Repr

/-- `Game.reset_game`, with the food's initial `randint` draw passed in. -/
def Game.resetGame (g : Game) (sample : Pos) : Game :=
  { g with snake := Snake.init, food := Food.init sample, score := 0 }

/-- The respawn `while True` loop of `Game.update`: keep drawing until the
draw is not on the snake; returns the first provided sample outside `body`,
or `none` when the provided samples are exhausted. -/
def firstNotIn (samples : List Pos) (body : List Pos) : Option Pos :=
  match samples with
  | [] => none
  | c :: rest => if c ∈ body then firstNotIn rest body else some c

/-- `Game.update`: one tick. Outside the `PLAYING` state it does nothing.
Otherwise move the snake; on collision switch to `GAME_OVER`; on landing on
the food, set the growth flag, increment the score and respawn the food off
the snake's body. `none` models the respawn loop exhausting `samples`. -/
def Game.update (g : Game) (samples : List Pos) : Option Game :=
  if g.gameState = GameState.PLAYING then
    let moveResult := g.snake.move
    if moveResult.1 = false then
      some { g with snake := moveResult.2, gameState := GameState.GAME_OVER }
    else
      let movedSnake := moveResult.2
      if movedSnake.getHeadPosition = g.food.position then
        let g2 : Game := { g with snake := movedSnake.grow, score := g.score + 1 }
        match firstNotIn samples g2.snake.positions with
        | some c => some { g2 with food := g2.food.randomizePosition c }
        | none => none
      else
        some { g with snake := movedSnake }
  else
    some g

/-- Snake states reachable from the initial snake by direction requests,
growth marks and successful (non-collision) moves. -/
inductive Reachable : Snake → Prop where
  | init : Reachable Snake.init
  | change {s : Snake} (d : Dir) : Reachable s → Reachable (s.changeDirection d)
  | grow {s : Snake} : Reachable s → Reachable s.grow
  | move {s s1 : Snake} : Reachable s → s.move = (true, s1) → Reachable s1

/-- A cell lies on the playing field. -/
def InGrid (p : Pos) : Prop :=
  0 ≤ p.1 ∧ p.1 < GRID_WIDTH ∧ 0 ≤ p.2 ∧ p.2 < GRID_HEIGHT

/-- The snake invariant: non-empty duplicate-free body, every segment on
the grid. -/
def SnakeInv (s : Snake) : Prop :=
  s.positions ≠ [] ∧ s.positions.Nodup ∧ ∀ p ∈ s.positions, InGrid p

/-- The cell the next `move` call will step the head to: `move` first
commits the pending direction and then computes `new_position` from it. -/
def Snake.pendingHead (s : Snake) : Pos :=
  ((s.getHeadPosition.1 + s.nextDirection.vec.1) % GRID_WIDTH,
   (s.getHeadPosition.2 + s.nextDirection.vec.2) % GRID_HEIGHT)

theorem grid_width_eq : GRID_WIDTH = 40 := by decide

theorem grid_height_eq : GRID_HEIGHT = 30 := by decide

theorem Snake.move_eq_collide {s : Snake} (h : s.pendingHead ∈ s.positions.tail) :
    s.move = (false, { s with direction := s.nextDirection }) := by
  simp only [Snake.move]
  have h1 : ({ s with direction := s.nextDirection } : Snake).newHeadPosition
      = s.pendingHead := rfl
  rw [h1, if_pos h]

theorem Snake.move_eq_pop {s : Snake} (h : s.pendingHead ∉ s.positions.tail)
    (hg : s.grew = false) :
    s.move = (true, { s with
                        direction := s.nextDirection
                        positions := (s.pendingHead :: s.positions).dropLast }) := by
  simp only [Snake.move]
  have h1 : ({ s with direction := s.nextDirection } : Snake).newHeadPosition
      = s.pendingHead := rfl
  rw [h1, if_neg h, if_pos hg]

theorem Snake.move_eq_keep {s : Snake} (h : s.pendingHead ∉ s.positions.tail)
    (hg : s.grew = true) :
    s.move = (true, { s with
                        direction := s.nextDirection
                        positions := s.pendingHead :: s.positions
                        grew := false }) := by
  simp only [Snake.move]
  have h1 : ({ s with direction := s.nextDirection } : Snake).newHeadPosition
      = s.pendingHead := rfl
  rw [h1, if_neg h, if_neg (by simp [hg])]

theorem pendingHead_inGrid (s : Snake) : InGrid s.pendingHead := by
  refine ⟨Int.emod_nonneg _ (by decide), ?_, Int.emod_nonneg _ (by decide), ?_⟩
  · exact Int.emod_lt_of_pos _ (by decide)
  · exact Int.emod_lt_of_pos _ (by decide)

theorem pendingHead_ne_head (s : Snake) (h : InGrid s.getHeadPosition) :
    s.pendingHead ≠ s.getHeadPosition := by
  obtain ⟨h1, h2, h3, h4⟩ := h
  rw [grid_width_eq] at h2
  rw [grid_height_eq] at h4
  cases hd : s.nextDirection <;>
    simp only [Snake.pendingHead, hd, Dir.vec, grid_width_eq, grid_height_eq,
      Prod.ext_iff, ne_eq, not_and] <;>
    intro ha <;> omega

theorem firstNotIn_not_mem {samples body : List Pos} {c : Pos}
    (h : firstNotIn samples body = some c) : c ∉ body := by
  induction samples with
  | nil => simp [firstNotIn] at h
  | cons a rest ih =>
    rw [firstNotIn] at h
    by_cases ha : a ∈ body
    · exact ih (by rwa [if_pos ha] at h)
    · rw [if_neg ha] at h
      obtain rfl : a = c := by injection h
      exact ha

theorem Snake.changeDirection_positions (s : Snake) (d : Dir) :
    (s.changeDirection d).positions = s.positions := by
  rw [Snake.changeDirection]; split <;> rfl

theorem Snake.move_length {s s1 : Snake} (hm : s.move = (true, s1)) :
    s1.positions.length = s.positions.length + (if s.grew = true then 1 else 0) := by
  by_cases hmem : s.pendingHead ∈ s.positions.tail
  · rw [Snake.move_eq_collide hmem] at hm
    exact absurd (congrArg Prod.fst hm) (by simp)
  · cases hg : s.grew
    · rw [Snake.move_eq_pop hmem hg] at hm
      injection hm with h1 h2
      subst h2
      simp [List.length_dropLast]
    · rw [Snake.move_eq_keep hmem hg] at hm
      injection hm with h1 h2
      subst h2
      simp

theorem Snake.move_inv {s s1 : Snake} (hinv : SnakeInv s) (hm : s.move = (true, s1)) :
    SnakeInv s1 := by
  obtain ⟨hne, hnd, hgrid⟩ := hinv
  by_cases hmem : s.pendingHead ∈ s.positions.tail
  · rw [Snake.move_eq_collide hmem] at hm
    exact absurd (congrArg Prod.fst hm) (by simp)
  · have hnotin : s.pendingHead ∉ s.positions := by
      obtain ⟨a, t, hat⟩ := List.exists_cons_of_ne_nil hne
      have hhead : s.getHeadPosition = a := by
        rw [Snake.getHeadPosition, hat, List.headI_cons]
      have hpa : s.pendingHead ≠ a := by
        have hig : InGrid s.getHeadPosition := by
          rw [hhead]
          exact hgrid a (hat ▸ List.mem_cons_self a t)
        exact hhead ▸ pendingHead_ne_head s hig
      rw [hat, List.tail_cons] at hmem
      rw [hat]
      simp [List.mem_cons, hpa, hmem]
    have hcons_nd : (s.pendingHead :: s.positions).Nodup :=
      List.nodup_cons.mpr ⟨hnotin, hnd⟩
    have hcons_grid : ∀ p ∈ s.pendingHead :: s.positions, InGrid p := by
      intro p hp
      rcases List.mem_cons.mp hp with rfl | hp2
      · exact pendingHead_inGrid s
      · exact hgrid p hp2
    cases hg : s.grew
    · rw [Snake.move_eq_pop hmem hg] at hm
      injection hm with h1 h2
      subst h2
      refine ⟨?_, ?_, ?_⟩
      · apply List.ne_nil_of_length_pos
        have hlen : ((s.pendingHead :: s.positions).dropLast).length
            = s.positions.length := by
          simp [List.length_dropLast]
        rw [hlen]
        exact List.length_pos.mpr hne
      · exact List.Nodup.sublist (List.dropLast_sublist _) hcons_nd
      · intro p hp
        exact hcons_grid p ((List.dropLast_sublist _).subset hp)
    · rw [Snake.move_eq_keep hmem hg] at hm
      injection hm with h1 h2
      subst h2
      exact ⟨by simp, hcons_nd, hcons_grid⟩

theorem reachable_snakeInv {s : Snake} (h : Reachable s) : SnakeInv s := by
  induction h with
  | init =>
    refine ⟨by decide, by decide, ?_⟩
    intro p hp
    have hp2 : p = ((GRID_WIDTH / 2 : Int), (GRID_HEIGHT / 2 : Int)) := by
      simpa [Snake.init] using hp
    subst hp2
    exact ⟨by decide, by decide, by decide, by decide⟩
  | change d hr ih =>
    obtain ⟨a, b, c⟩ := ih
    refine ⟨?_, ?_, ?_⟩ <;> rw [Snake.changeDirection_positions]
    · exact a
    · exact b
    · exact c
  | grow hr ih => exact ih
  | move hr hm ih => exact Snake.move_inv ih hm

theorem Snake.move_grew {s s1 : Snake} (hm : s.move = (true, s1)) : s1.grew = false := by
  by_cases hmem : s.pendingHead ∈ s.positions.tail
  · rw [Snake.move_eq_collide hmem] at hm
    exact absurd (congrArg Prod.fst hm) (by simp)
  · cases hg : s.grew
    · rw [Snake.move_eq_pop hmem hg] at hm
      injection hm with h1 h2
      subst h2
      exact hg
    · rw [Snake.move_eq_keep hmem hg] at hm
      injection hm with h1 h2
      subst h2
      rfl

/-- Claim C1, counterexample: a tick in which the head lands on the food
does NOT increase the body length in that same tick. Starting from the
fresh snake (length 1 at `(20, 15)`) with the food at `(21, 15)`, one
`update` moves the head onto the food (so the score becomes 1), yet the
body length after the tick is still 1 — growth is only marked via the
`grew` flag and materialises on the NEXT move. -/
theorem tick_growth_same_tick_cex :
    ((Game.mk GameState.PLAYING Snake.init (Food.mk (21, 15)) 0).snake.move).2.getHeadPosition
        = (Game.mk GameState.PLAYING Snake.init (Food.mk (21, 15)) 0).food.position
    ∧ (Game.mk GameState.PLAYING Snake.init (Food.mk (21, 15)) 0).update [(0, 0)]
        = some (Game.mk GameState.PLAYING
            (Snake.mk [((21 : Int), 15)] Dir.RIGHT Dir.RIGHT true) (Food.mk (0, 0)) 1)
    ∧ (Snake.mk [((21 : Int), 15)] Dir.RIGHT Dir.RIGHT true).positions.length
        = Snake.init.positions.length := by
  refine ⟨by decide, by decide, by decide⟩

/-- Claim C1, amended: in every successful (non-collision) tick, the score
increases by 1 exactly when the moved head lands on the food, and such a
tick only SETS the pending-growth flag; the body length instead increases
by exactly 1 in the tick whose move consumes a previously set growth flag:
new length = old length + (1 if the `grew` flag was set at the start of
the tick, else 0). -/
theorem tick_growth_deferred (g g1 : Game) (samples : List Pos)
    (hplay : g.gameState = GameState.PLAYING)
    (hmove : (g.snake.move).1 = true)
    (hupd : g.update samples = some g1) :
    g1.score = g.score
        + (if (g.snake.move).2.getHeadPosition = g.food.position then 1 else 0)
    ∧ g1.snake.positions.length
        = g.snake.positions.length + (if g.snake.grew = true then 1 else 0)
    ∧ (g1.snake.grew = true ↔ (g.snake.move).2.getHeadPosition = g.food.position) := by
  rcases hms : g.snake.move with ⟨b, s2⟩
  rw [hms] at hmove
  simp at hmove
  subst hmove
  have hlen := Snake.move_length hms
  have hgrew := Snake.move_grew hms
  simp [Game.update, hplay, hms] at hupd
  by_cases heat : s2.getHeadPosition = g.food.position
  · rw [if_pos heat] at hupd
    cases hfind : firstNotIn samples (s2.grow).positions with
    | none =>
      rw [hfind] at hupd
      simp at hupd
    | some c =>
      rw [hfind] at hupd
      simp at hupd
      subst hupd
      refine ⟨by simp [heat], ?_, by simp [Snake.grow, heat]⟩
      show s2.positions.length = _
      exact hlen
  · rw [if_neg heat] at hupd
    simp at hupd
    subst hupd
    exact ⟨by simp [heat], hlen, by simp [hgrew, heat]⟩

/-- Claim C1, amended, witness: the fresh-food tick that consumes a pending
growth flag — snake `[(21, 15)]` with `grew = true` and food at
`(22, 15)`: the tick both grows the body to length 2 (consuming the flag
set by the previous tick) and scores the new food under the head. -/
theorem tick_growth_deferred_witness :
    (Game.mk GameState.PLAYING (Snake.mk [((21 : Int), 15)] Dir.RIGHT Dir.RIGHT true)
        (Food.mk (22, 15)) 0).gameState = GameState.PLAYING
    ∧ (((Game.mk GameState.PLAYING (Snake.mk [((21 : Int), 15)] Dir.RIGHT Dir.RIGHT true)
        (Food.mk (22, 15)) 0).snake.move).1 = true)
    ∧ ((Game.mk GameState.PLAYING (Snake.mk [((21 : Int), 15)] Dir.RIGHT Dir.RIGHT true)
        (Food.mk (22, 15)) 0).update [(0, 0)]
        = some (Game.mk GameState.PLAYING
            (Snake.mk [((22 : Int), 15), (21, 15)] Dir.RIGHT Dir.RIGHT true)
            (Food.mk (0, 0)) 1))
    ∧ ((Game.mk GameState.PLAYING
            (Snake.mk [((22 : Int), 15), (21, 15)] Dir.RIGHT Dir.RIGHT true)
            (Food.mk (0, 0)) 1).score
        = (Game.mk GameState.PLAYING (Snake.mk [((21 : Int), 15)] Dir.RIGHT Dir.RIGHT true)
            (Food.mk (22, 15)) 0).score
          + (if ((Game.mk GameState.PLAYING
                (Snake.mk [((21 : Int), 15)] Dir.RIGHT Dir.RIGHT true)
                (Food.mk (22, 15)) 0).snake.move).2.getHeadPosition
              = (Game.mk GameState.PLAYING
                (Snake.mk [((21 : Int), 15)] Dir.RIGHT Dir.RIGHT true)
                (Food.mk (22, 15)) 0).food.position then 1 else 0)
      ∧ (Game.mk GameState.PLAYING
            (Snake.mk [((22 : Int), 15), (21, 15)] Dir.RIGHT Dir.RIGHT true)
            (Food.mk (0, 0)) 1).snake.positions.length
        = (Game.mk GameState.PLAYING (Snake.mk [((21 : Int), 15)] Dir.RIGHT Dir.RIGHT true)
            (Food.mk (22, 15)) 0).snake.positions.length
          + (if (Game.mk GameState.PLAYING
                (Snake.mk [((21 : Int), 15)] Dir.RIGHT Dir.RIGHT true)
                (Food.mk (22, 15)) 0).snake.grew = true then 1 else 0)
      ∧ ((Game.mk GameState.PLAYING
            (Snake.mk [((22 : Int), 15), (21, 15)] Dir.RIGHT Dir.RIGHT true)
            (Food.mk (0, 0)) 1).snake.grew = true
          ↔ ((Game.mk GameState.PLAYING
                (Snake.mk [((21 : Int), 15)] Dir.RIGHT Dir.RIGHT true)
                (Food.mk (22, 15)) 0).snake.move).2.getHeadPosition
            = (Game.mk GameState.PLAYING
                (Snake.mk [((21 : Int), 15)] Dir.RIGHT Dir.RIGHT true)
                (Food.mk (22, 15)) 0).food.position)) :=
  ⟨rfl, by decide, by decide,
    tick_growth_deferred
      (Game.mk GameState.PLAYING (Snake.mk [((21 : Int), 15)] Dir.RIGHT Dir.RIGHT true)
        (Food.mk (22, 15)) 0)
      (Game.mk GameState.PLAYING
        (Snake.mk [((22 : Int), 15), (21, 15)] Dir.RIGHT Dir.RIGHT true)
        (Food.mk (0, 0)) 1)
      [(0, 0)] rfl (by decide) (by decide)⟩

/-- Claim C2, counterexample: the INITIAL placement of the food is not
checked against the snake. `Food.__init__` (called from `reset_game`)
places the food at an unconstrained `randint` draw; the draw `(20, 15)` is
inside the grid (`0..39 × 0..29`) and lands exactly on the freshly
constructed snake's only segment, the grid center. -/
theorem reset_food_on_snake_cex :
    ((Game.mk GameState.MENU Snake.init (Food.init (0, 0)) 0).resetGame (20, 15)).food.position
      ∈ ((Game.mk GameState.MENU Snake.init (Food.init (0, 0)) 0).resetGame
          (20, 15)).snake.positions := by
  decide

/-- Claim C2, amended: after every relocation of the food performed by
`update` when the snake's head lands on it, the food's cell is not a
member of the snake's body at that instant; the initial placement at
construction or reset performs no such check and can land on the snake. -/
theorem respawned_food_not_on_snake (g g1 : Game) (samples : List Pos)
    (hplay : g.gameState = GameState.PLAYING)
    (hmove : (g.snake.move).1 = true)
    (heat : (g.snake.move).2.getHeadPosition = g.food.position)
    (hupd : g.update samples = some g1) :
    g1.food.position ∉ g1.snake.positions := by
  rcases hms : g.snake.move with ⟨b, s2⟩
  rw [hms] at hmove heat
  simp at hmove
  subst hmove
  simp at heat
  simp [Game.update, hplay, hms, heat] at hupd
  cases hfind : firstNotIn samples (s2.grow).positions with
  | none =>
    rw [hfind] at hupd
    simp at hupd
  | some c =>
    rw [hfind] at hupd
    simp at hupd
    subst hupd
    simpa [Food.randomizePosition] using firstNotIn_not_mem hfind

/-- Claim C2, amended, witness: eating tick where the first respawn draw
`(21, 15)` is rejected (it is the snake's body) and the second `(7, 7)`
is kept; the relocated food is off the snake. -/
theorem respawned_food_not_on_snake_witness :
    (Game.mk GameState.PLAYING Snake.init (Food.mk (21, 15)) 0).gameState
        = GameState.PLAYING
    ∧ (((Game.mk GameState.PLAYING Snake.init (Food.mk (21, 15)) 0).snake.move).1 = true)
    ∧ (((Game.mk GameState.PLAYING Snake.init
          (Food.mk (21, 15)) 0).snake.move).2.getHeadPosition
        = (Game.mk GameState.PLAYING Snake.init (Food.mk (21, 15)) 0).food.position)
    ∧ ((Game.mk GameState.PLAYING Snake.init (Food.mk (21, 15)) 0).update
          [(21, 15), (7, 7)]
        = some (Game.mk GameState.PLAYING
            (Snake.mk [((21 : Int), 15)] Dir.RIGHT Dir.RIGHT true) (Food.mk (7, 7)) 1))
    ∧ (Game.mk GameState.PLAYING (Snake.mk [((21 : Int), 15)] Dir.RIGHT Dir.RIGHT true)
          (Food.mk (7, 7)) 1).food.position
        ∉ (Game.mk GameState.PLAYING (Snake.mk [((21 : Int), 15)] Dir.RIGHT Dir.RIGHT true)
            (Food.mk (7, 7)) 1).snake.positions :=
  ⟨rfl, by decide, by decide, by decide,
    respawned_food_not_on_snake
      (Game.mk GameState.PLAYING Snake.init (Food.mk (21, 15)) 0)
      (Game.mk GameState.PLAYING (Snake.mk [((21 : Int), 15)] Dir.RIGHT Dir.RIGHT true)
        (Food.mk (7, 7)) 1)
      [(21, 15), (7, 7)] rfl (by decide) (by decide) (by decide)⟩

/-- Claim C3: for every canonical direction `d` and every snake whose
pending direction is `d`, `change_direction (opposite d)` leaves the
pending direction equal to `d` — the reversal request is silently
ignored. -/
theorem request_reverse_ignored (s : Snake) (d : Dir) (h : s.nextDirection = d) :
    (s.changeDirection (getOppositeDirection d)).nextDirection = d := by
  have hop : getOppositeDirection (getOppositeDirection d) = d := by
    cases d <;> rfl
  have hcond : ¬(s.nextDirection ≠ getOppositeDirection (getOppositeDirection d)) := by
    rw [hop, h]
    simp
  rw [Snake.changeDirection, if_neg hcond]
  exact h

/-- Claim C3, witness: the fresh snake (pending `RIGHT`) ignores a `LEFT`
request. -/
theorem request_reverse_ignored_witness :
    Snake.init.nextDirection = Dir.RIGHT
    ∧ (Snake.init.changeDirection (getOppositeDirection Dir.RIGHT)).nextDirection
        = Dir.RIGHT :=
  ⟨rfl, request_reverse_ignored Snake.init Dir.RIGHT rfl⟩

/-- Claim C4: whenever the computed new head cell (`pendingHead`, the
wrapped head-plus-committed-direction cell `move` is about to step to)
lies in `positions[1:]`, `move` returns the collision signal `False` and
the body list is exactly its pre-call value. -/
theorem move_collision_frame (s : Snake)
    (h : s.pendingHead ∈ s.positions.tail) :
    (s.move).1 = false ∧ (s.move).2.positions = s.positions := by
  rw [Snake.move_eq_collide h]
  exact ⟨rfl, rfl⟩

/-- Claim C4, witness: the coiled length-3 snake of the spec's scenario,
`[(2, 2), (1, 2), (1, 3)]` facing `LEFT`, steps onto segment 1 of its own
body: `move` reports the collision and the body is unchanged. -/
theorem move_collision_frame_witness :
    (Snake.mk [((2 : Int), 2), (1, 2), (1, 3)] Dir.LEFT Dir.LEFT false).pendingHead
        ∈ (Snake.mk [((2 : Int), 2), (1, 2), (1, 3)] Dir.LEFT Dir.LEFT false).positions.tail
    ∧ (((Snake.mk [((2 : Int), 2), (1, 2), (1, 3)] Dir.LEFT Dir.LEFT false).move).1 = false
      ∧ ((Snake.mk [((2 : Int), 2), (1, 2), (1, 3)] Dir.LEFT Dir.LEFT false).move).2.positions
        = (Snake.mk [((2 : Int), 2), (1, 2), (1, 3)] Dir.LEFT Dir.LEFT false).positions) :=
  ⟨by decide, move_collision_frame _ (by decide)⟩

/-- Claim C5: every snake state reachable from the initial snake by
`change_direction`, `grow` and successful `move` calls has a non-empty
body with no duplicate cell. -/
theorem reachable_body_nonempty_nodup (s : Snake) (h : Reachable s) :
    s.positions ≠ [] ∧ s.positions.Nodup := by
  obtain ⟨a, b, -⟩ := reachable_snakeInv h
  exact ⟨a, b⟩

/-- Claim C5, witness: the length-2 state produced by `grow` followed by a
successful `move` from the initial snake. -/
theorem reachable_body_nonempty_nodup_witness :
    (Snake.mk [((21 : Int), 15), (20, 15)] Dir.RIGHT Dir.RIGHT false).positions ≠ []
    ∧ (Snake.mk [((21 : Int), 15), (20, 15)] Dir.RIGHT Dir.RIGHT false).positions.Nodup :=
  reachable_body_nonempty_nodup _
    (Reachable.move (Reachable.grow Reachable.init) (by decide))

/-- Claim C6: every successful `move` places the head at the old head plus
the committed direction vector (the pending direction it just committed),
each axis reduced modulo the grid extent on that axis. -/
theorem move_wraps_modulo (s : Snake) (hne : s.positions ≠ [])
    (hmove : (s.move).1 = true) :
    (s.move).2.getHeadPosition
      = ((s.getHeadPosition.1 + s.nextDirection.vec.1) % GRID_WIDTH,
         (s.getHeadPosition.2 + s.nextDirection.vec.2) % GRID_HEIGHT) := by
  by_cases hmem : s.pendingHead ∈ s.positions.tail
  · rw [Snake.move_eq_collide hmem] at hmove
    simp at hmove
  · show (s.move).2.getHeadPosition = s.pendingHead
    cases hg : s.grew
    · rw [Snake.move_eq_pop hmem hg]
      obtain ⟨a, t, hat⟩ := List.exists_cons_of_ne_nil hne
      show ((s.pendingHead :: s.positions).dropLast).headI = s.pendingHead
      rw [hat, List.dropLast_cons₂, List.headI_cons]
    · rw [Snake.move_eq_keep hmem hg]
      exact List.headI_cons

/-- Claim C6, witness: moving `RIGHT` from the rightmost column, cell
`(39, 5)`, wraps to column 0 of the same row. -/
theorem move_wraps_modulo_witness :
    (Snake.mk [((39 : Int), 5)] Dir.RIGHT Dir.RIGHT false).positions ≠ []
    ∧ ((Snake.mk [((39 : Int), 5)] Dir.RIGHT Dir.RIGHT false).move).1 = true
    ∧ ((Snake.mk [((39 : Int), 5)] Dir.RIGHT Dir.RIGHT false).move).2.getHeadPosition
        = (0, 5) := by
  refine ⟨by decide, by decide, ?_⟩
  rw [move_wraps_modulo (Snake.mk [((39 : Int), 5)] Dir.RIGHT Dir.RIGHT false)
    (by decide) (by decide)]
  decide

/-- Claim C7: once the session is in the `GAME_OVER` state, `update` is a
no-op — the whole game state (snake body, food position, score) is
returned unchanged, whatever random samples a respawn could have drawn. -/
theorem update_after_game_over_noop (g : Game) (samples : List Pos)
    (h : g.gameState = GameState.GAME_OVER) :
    g.update samples = some g := by
  simp [Game.update, h]

/-- Claim C7, witness: an `update` on a concrete terminated game returns
it unchanged. -/
theorem update_after_game_over_noop_witness :
    (Game.mk GameState.GAME_OVER
        (Snake.mk [((5 : Int), 5), (4, 5)] Dir.RIGHT Dir.RIGHT false)
        (Food.mk (3, 3)) 7).update [(9, 9)]
      = some (Game.mk GameState.GAME_OVER
          (Snake.mk [((5 : Int), 5), (4, 5)] Dir.RIGHT Dir.RIGHT false)
          (Food.mk (3, 3)) 7) :=
  update_after_game_over_noop _ _ rfl

/-- Claim C8: two `change_direction` calls between two moves can reverse
the snake into its own neck, because each request is compared against the
pending (not the committed) direction. Concretely: after `grow` and one
`move`, the length-2 snake has committed direction `RIGHT`; requesting
`UP` then `LEFT` leaves pending direction `LEFT = opposite(RIGHT)`, the
next step lands on the neck segment, and the next `move` returns the
collision signal. -/
theorem double_request_reverses_into_neck :
    (((Snake.init.grow.move).2.changeDirection Dir.UP).changeDirection
          Dir.LEFT).nextDirection
        = getOppositeDirection (Snake.init.grow.move).2.direction
    ∧ (((Snake.init.grow.move).2.changeDirection Dir.UP).changeDirection
          Dir.LEFT).pendingHead
        ∈ (((Snake.init.grow.move).2.changeDirection Dir.UP).changeDirection
            Dir.LEFT).positions.tail
    ∧ (((((Snake.init.grow.move).2.changeDirection Dir.UP).changeDirection
          Dir.LEFT)).move).1 = false := by
  refine ⟨by decide, by decide, by decide⟩

/-- Claim C9: the freshly constructed snake has body length exactly 1, its
single cell is the grid center `(GRID_WIDTH / 2, GRID_HEIGHT / 2)`, and
both its committed and pending directions are `RIGHT`. -/
theorem snake_init_center_right :
    Snake.init.positions.length = 1
    ∧ Snake.init.getHeadPosition = (GRID_WIDTH / 2, GRID_HEIGHT / 2)
    ∧ Snake.init.direction = Dir.RIGHT
    ∧ Snake.init.nextDirection = Dir.RIGHT :=
  ⟨rfl, rfl, rfl, rfl⟩

/-- Claim C10: `change_direction` modifies at most the pending direction:
the body, the committed direction and the pending-growth flag are
unchanged whether or not the request is accepted. -/
theorem changeDirection_frame (s : Snake) (d : Dir) :
    (s.changeDirection d).positions = s.positions
    ∧ (s.changeDirection d).direction = s.direction
    ∧ (s.changeDirection d).grew = s.grew := by
  rw [Snake.changeDirection]
  split <;> exact ⟨rfl, rfl, rfl⟩

end SnakeGame
